import Mathlib

/-!
Shallow embedding of the ABCI socket client (`src/client/socket_client.go`,
package `abcicli`).

The client owns a bounded submission channel (`reqQueue`), an in-flight FIFO
of requests written but not yet answered (`reqSent`), a latched fatal error
(`err`), a flush throttle timer, and a buffered writer over the connection.
Two routines (`sendRequestsRoutine`, `recvResponseRoutine`) are modelled by
pure step functions over an explicit `ClientState`; a `ReqRes` handle is
shared between the caller and the queues, so handles live in an id-indexed
store (`store : List ReqRes`) and the queues hold indices into it.

Machine details abstracted: the wire codec (`types.WriteMessage` /
`types.ReadMessage`) is modelled as moving whole frames; payload types from
the external `types` package that the client never inspects are placeholder
structures.
-/

namespace Abcicli

/-- Variant tags of the request/response tagged union (used for the
`reflect.TypeOf` content of protocol error messages and for the spec-side
matching predicate). -/
inductive Tag
  | echo
  | flush
  | info
  | setOption
  | deliverTx
  | checkTx
  | commit
  | query
  | initChain
  | beginBlock
  | endBlock
deriving DecidableEq, Repr

/-- Modelled from the spec: payload of `Info(...)`; the wire schema of
individual variants is out of scope, so the payload is a placeholder. -/
structure RequestInfo where
  data : String
deriving DecidableEq, Repr

/-- Modelled from the spec: payload of `Query(...)` (placeholder). -/
structure RequestQuery where
  data : String
deriving DecidableEq, Repr

/-- Modelled from the spec: payload of `InitChain(...)` (placeholder). -/
structure RequestInitChain where
  data : String
deriving DecidableEq, Repr

/-- Modelled from the spec: payload of `BeginBlock(...)` (placeholder). -/
structure RequestBeginBlock where
  data : String
deriving DecidableEq, Repr

/-- The `Request.Value` tagged union (`types.Request`): one constructor per
request variant, payloads as in the spec (`Echo(msg)`, `SetOption(key,value)`,
`DeliverTx(bytes)`, `CheckTx(bytes)`, `EndBlock(height)`; the rest
placeholders). -/
inductive RequestValue
  | echo (message : String)
  | flush
  | info (req : RequestInfo)
  | setOption (key : String) (value : String)
  | deliverTx (tx : List Nat)
  | checkTx (tx : List Nat)
  | commit
  | query (req : RequestQuery)
  | initChain (req : RequestInitChain)
  | beginBlock (req : RequestBeginBlock)
  | endBlock (height : Nat)
deriving DecidableEq, Repr

/-- `types.Request`: a record holding the tagged-union `Value`. -/
structure Request where
  value : RequestValue
deriving DecidableEq, Repr

/-- Modelled from the spec: payload of `Response_Info` (placeholder). -/
structure ResponseInfo where
  data : String
deriving DecidableEq, Repr

/-- Modelled from the spec: payload of `Response_Query` (placeholder). -/
structure ResponseQuery where
  data : String
deriving DecidableEq, Repr

/-- Modelled from the spec: payload of `Response_DeliverTx` (placeholder). -/
structure ResponseDeliverTx where
  data : String
deriving DecidableEq, Repr

/-- Modelled from the spec: payload of `Response_CheckTx` (placeholder). -/
structure ResponseCheckTx where
  data : String
deriving DecidableEq, Repr

/-- The `Response.Value` tagged union (`types.Response`): one response
variant per request variant, plus the distinguished `Exception` variant
carrying a human-readable string. -/
inductive ResponseValue
  | exception (error : String)
  | echo (message : String)
  | flush
  | info (res : ResponseInfo)
  | setOption (log : String)
  | deliverTx (res : ResponseDeliverTx)
  | checkTx (res : ResponseCheckTx)
  | commit (data : List Nat)
  | query (res : ResponseQuery)
  | initChain
  | beginBlock
  | endBlock (height : Nat)
deriving DecidableEq, Repr

/-- `types.Response`: a record holding the tagged-union `Value`. -/
structure Response where
  value : ResponseValue
deriving DecidableEq, Repr

/-- Variant tag of a request value. -/
def reqTag : RequestValue → Tag
  | RequestValue.echo _ => Tag.echo
  | RequestValue.flush => Tag.flush
  | RequestValue.info _ => Tag.info
  | RequestValue.setOption _ _ => Tag.setOption
  | RequestValue.deliverTx _ => Tag.deliverTx
  | RequestValue.checkTx _ => Tag.checkTx
  | RequestValue.commit => Tag.commit
  | RequestValue.query _ => Tag.query
  | RequestValue.initChain _ => Tag.initChain
  | RequestValue.beginBlock _ => Tag.beginBlock
  | RequestValue.endBlock _ => Tag.endBlock

/-- Variant tag of a response value; `Exception` has no request counterpart
and maps to `none`. -/
def resTagOf : ResponseValue → Option Tag
  | ResponseValue.exception _ => none
  | ResponseValue.echo _ => some Tag.echo
  | ResponseValue.flush => some Tag.flush
  | ResponseValue.info _ => some Tag.info
  | ResponseValue.setOption _ => some Tag.setOption
  | ResponseValue.deliverTx _ => some Tag.deliverTx
  | ResponseValue.checkTx _ => some Tag.checkTx
  | ResponseValue.commit _ => some Tag.commit
  | ResponseValue.query _ => some Tag.query
  | ResponseValue.initChain => some Tag.initChain
  | ResponseValue.beginBlock => some Tag.beginBlock
  | ResponseValue.endBlock _ => some Tag.endBlock

/-- Whether a response is the distinguished `Exception` variant (the type
switch in `recvResponseRoutine`). -/
def isException (res : Response) : Bool :=
  match res.value with
  | ResponseValue.exception _ => true
  | _ => false

/-- Nil-safe protobuf getter `Response.GetInfo`. -/
def Response.getInfo (res : Response) : Option ResponseInfo :=
  match res.value with
  | ResponseValue.info r => some r
  | _ => none

/-- `resMatchesReq` (socket_client.go:381-407): type switch on the request
variant; `ok` is the type assertion of the response value against the paired
response variant; any pairing not listed leaves `ok = false`. -/
def resMatchesReq (req : Request) (res : Response) : Bool :=
  match req.value, res.value with
  | RequestValue.echo _, ResponseValue.echo _ => true
  | RequestValue.flush, ResponseValue.flush => true
  | RequestValue.info _, ResponseValue.info _ => true
  | RequestValue.setOption _ _, ResponseValue.setOption _ => true
  | RequestValue.deliverTx _, ResponseValue.deliverTx _ => true
  | RequestValue.checkTx _, ResponseValue.checkTx _ => true
  | RequestValue.commit, ResponseValue.commit _ => true
  | RequestValue.query _, ResponseValue.query _ => true
  | RequestValue.initChain _, ResponseValue.initChain => true
  | RequestValue.beginBlock _, ResponseValue.beginBlock => true
  | RequestValue.endBlock _, ResponseValue.endBlock _ => true
  | _, _ => false

/-- Whether a request is the `Request_Flush` variant (the type assertions at
socket_client.go:153 and the switch at socket_client.go:357). -/
def isFlushReq (req : Request) : Bool :=
  match req.value with
  | RequestValue.flush => true
  | _ => false

/-- A `ReqRes` handle: the outbound request, the optional inbound response
(set exactly once by the receiver), the one-shot completion flag (`Done`),
and whether a per-request callback is installed (the callback body is not
modelled; its invocations are logged in the client state). -/
structure ReqRes where
  request : Request
  response : Option Response
  done : Bool
  hasCallback : Bool
deriving DecidableEq, Repr

instance : Inhabited ReqRes :=
  ⟨{ request := { value := RequestValue.flush }, response := none,
     done := false, hasCallback := false }⟩

/-- `NewReqRes`: fresh handle, no response, completion unsignaled. -/
def NewReqRes (req : Request) : ReqRes :=
  { request := req, response := none, done := false, hasCallback := false }

/-- Callback invocations recorded by `didRecvResponse` (per-`ReqRes` callback
and the client-wide response listener), identified by the handle id. -/
inductive CbEvent
  | reqresCb (id : Nat)
  | clientCb (id : Nat)
deriving DecidableEq, Repr

/-- The fatal errors the client can latch. Protocol errors carry the variant
tags that `fmt.Errorf` renders via `reflect.TypeOf`. -/
inductive CErr
  | connectError
  | writeError
  | flushWriterError
  | readError
  | remoteException (msg : String)
  | protocolNothingExpected (got : Option Tag)
  | protocolMismatch (got : Option Tag) (expected : Tag)
deriving DecidableEq, Repr

/-- Result of `errors.Wrap(cli.err, types.HumanCode(types.CodeType_InternalError))`:
the latched cause wrapped with the generic internal-error tag. `Error()`
returns `none` exactly when no error is latched (`errors.Wrap(nil, ...)` is
nil). -/
structure WrappedError where
  cause : CErr
deriving DecidableEq, Repr

/-- `reqQueueSize = 256` (socket_client.go:22), the submission channel
capacity. -/
def reqQueueSize : Nat := 256

/-- `flushThrottleMS = 20` (socket_client.go:24). -/
def flushThrottleMS : Nat := 20

/-- The mutable state of a `socketClient`. `store` is the id-indexed heap of
`ReqRes` handles ever constructed; `reqQueue` and `reqSent` hold ids into it.
`flushTimerSet` is whether the throttle timer is armed; `wbuf` is the content
of the buffered writer not yet flushed to the socket; `wire` is what has been
flushed. -/
structure ClientState where
  running : Bool
  connOpen : Bool
  mustConnect : Bool
  addr : String
  err : Option CErr
  store : List ReqRes
  reqQueue : List Nat
  reqSent : List Nat
  flushTimerSet : Bool
  resCbSet : Bool
  cbLog : List CbEvent
  wbuf : List Request
  wire : List Request
deriving DecidableEq, Repr

/-- `NewSocketClient(addr, mustConnect)`: the Not-Started state. -/
def NewSocketClient (addr : String) (mustConnect : Bool) : ClientState :=
  { running := false, connOpen := false, mustConnect := mustConnect,
    addr := addr, err := none, store := [], reqQueue := [], reqSent := [],
    flushTimerSet := false, resCbSet := false, cbLog := [], wbuf := [],
    wire := [] }

/-- `Error()` (socket_client.go:116-120): the latched error wrapped with the
internal-error tag; nil stays nil. -/
def Error (s : ClientState) : Option WrappedError :=
  s.err.map fun e => { cause := e }

/-- `ThrottleTimer.Unset`. -/
def flushTimerUnset (s : ClientState) : ClientState :=
  { s with flushTimerSet := false }

/-- `ThrottleTimer.Set` (arming an armed timer is a no-op; on the armed flag
both cases yield `true`). -/
def flushTimerSetOp (s : ClientState) : ClientState :=
  { s with flushTimerSet := true }

/-- `queueRequest(req)` (socket_client.go:350-365): construct a fresh
`ReqRes`, send it on `reqQueue` (the send blocks while the channel is full;
the state reflects the completed send), then unset the flush timer for a
`Flush` request and set it for any other variant, and return the handle. -/
def queueRequest (req : Request) (s : ClientState) : Nat × ClientState :=
  let reqres := NewReqRes req
  let id := s.store.length
  let s1 := { s with store := s.store ++ [reqres], reqQueue := s.reqQueue ++ [id] }
  let s2 :=
    match req.value with
    | RequestValue.flush => flushTimerUnset s1
    | _ => flushTimerSetOp s1
  (id, s2)

/-- Mark a handle done in the store (`reqres.Done()` on the handle at `id`). -/
def setDoneStore (st : List ReqRes) (id : Nat) : List ReqRes :=
  st.set id { st.getD id default with done := true }

/-- `flushQueue` (socket_client.go:367-377): drain the submission channel
non-blockingly, signaling `Done()` on each drained handle. The in-flight
FIFO `reqSent` is not touched. -/
def flushQueue (s : ClientState) : ClientState :=
  { s with store := s.reqQueue.foldl setDoneStore s.store, reqQueue := [] }

/-- `OnStop` (socket_client.go:88-98): close the connection if open, then
drain the submission queue. -/
def OnStop (s : ClientState) : ClientState :=
  flushQueue { s with connOpen := false }

/-- `BaseService.Stop`: idempotent; on a running service clear the running
flag and invoke `OnStop`, otherwise do nothing. -/
def stop (s : ClientState) : ClientState :=
  if s.running then OnStop { s with running := false } else s

/-- `StopForError(err)` (socket_client.go:101-114): return immediately if the
client is not running; otherwise latch `err` if no error is latched yet
(first-writer-wins) and stop the client. -/
def stopForError (e : CErr) (s : ClientState) : ClientState :=
  if s.running then
    stop { s with err := match s.err with
                         | none => some e
                         | some e0 => some e0 }
  else s

/-- `willSendReq` (socket_client.go:190-194): append the handle to the
in-flight FIFO under the mutex. -/
def willSendReq (id : Nat) (s : ClientState) : ClientState :=
  { s with reqSent := s.reqSent ++ [id] }

/-- `types.WriteMessage(req, w)` on the buffered writer: the frame is
appended to the writer buffer, not yet flushed to the socket. -/
def writeMessage (req : Request) (wbuf : List Request) : List Request :=
  wbuf ++ [req]

/-- Ordered events of one iteration of the sender loop body for a popped
submission. -/
inductive SenderEvent
  | appendFifo (id : Nat)
  | writeFrame (id : Nat)
  | flushWriter
deriving DecidableEq, Repr

/-- The `case reqres := <-cli.reqQueue` body of `sendRequestsRoutine`
(socket_client.go:145-160), on a handle id already popped from the channel:
`willSendReq` first, then `WriteMessage` into the buffered writer, then —
only when the request variant is `Request_Flush` — `w.Flush()`, which moves
the buffered frames onto the wire. Returns the new state and the ordered
event trace of the iteration. -/
def senderProcessT (id : Nat) (s : ClientState) : ClientState × List SenderEvent :=
  let s1 := willSendReq id s
  let req := (s1.store.getD id default).request
  let s2 := { s1 with wbuf := writeMessage req s1.wbuf }
  if isFlushReq req then
    ({ s2 with wire := s2.wire ++ s2.wbuf, wbuf := [] },
     [SenderEvent.appendFifo id, SenderEvent.writeFrame id, SenderEvent.flushWriter])
  else
    (s2, [SenderEvent.appendFifo id, SenderEvent.writeFrame id])

/-- State part of `senderProcessT`. -/
def senderProcess (id : Nat) (s : ClientState) : ClientState :=
  (senderProcessT id s).1

/-- One `case reqres := <-cli.reqQueue` step including the pop itself:
`none` when the channel is empty (the select would block). -/
def senderQueueStep (s : ClientState) : Option (ClientState × List SenderEvent) :=
  match s.reqQueue with
  | [] => none
  | id :: rest => some (senderProcessT id { s with reqQueue := rest })

/-- The `case <-cli.flushTimer.Ch` body of `sendRequestsRoutine`
(socket_client.go:137-142): a non-blocking send of `NewReqRes(ToRequestFlush())`
on the submission channel; the `default` arm drops the send silently when the
channel is full. -/
def timerFireStep (s : ClientState) : ClientState :=
  if s.reqQueue.length < reqQueueSize then
    { s with store := s.store ++ [NewReqRes { value := RequestValue.flush }],
             reqQueue := s.reqQueue ++ [s.store.length] }
  else s

/-- `didRecvResponse(res)` (socket_client.go:196-226): under the mutex, take
the front of `reqSent` (error when empty), check `resMatchesReq` (error on
mismatch), otherwise set the response on the handle, signal `Done()`, pop the
FIFO front, and fire the per-handle callback and the client listener when
installed. -/
def didRecvResponse (res : Response) (s : ClientState) : Except CErr ClientState :=
  match s.reqSent with
  | [] => Except.error (CErr.protocolNothingExpected (resTagOf res.value))
  | next :: rest =>
    let reqres := s.store.getD next default
    if resMatchesReq reqres.request res then
      let reqres2 := { reqres with response := some res, done := true }
      let s2 := { s with store := s.store.set next reqres2, reqSent := rest }
      let s3 := if reqres2.hasCallback
                then { s2 with cbLog := s2.cbLog ++ [CbEvent.reqresCb next] }
                else s2
      let s4 := if s3.resCbSet
                then { s3 with cbLog := s3.cbLog ++ [CbEvent.clientCb next] }
                else s3
      Except.ok s4
    else
      Except.error (CErr.protocolMismatch (resTagOf res.value)
        (reqTag reqres.request.value))

/-- One iteration of `recvResponseRoutine` (socket_client.go:164-188) for a
successfully read response: an `Exception` latches its text and stops the
client; otherwise `didRecvResponse` runs and any error it returns is latched
via `StopForError`. -/
def recvStep (res : Response) (s : ClientState) : ClientState :=
  match res.value with
  | ResponseValue.exception msg => stopForError (CErr.remoteException msg) s
  | _ =>
    match didRecvResponse res s with
    | Except.error e => stopForError e s
    | Except.ok s2 => s2

/-- Events of `OnStart` (socket_client.go:61-86): connect attempts, the
3-second sleep between retries, the two `go` statements, and the two ways
out of the function. -/
inductive StartEvent
  | connectAttempt
  | sleep3s
  | spawnSender
  | spawnReceiver
  | returnedConnectError
  | returnedOk
deriving DecidableEq, Repr

/-- The `RETRY_LOOP` of `OnStart` as an event trace, driven by the outcomes
of successive `cmn.Connect` attempts (`true` = success). A success spawns
`sendRequestsRoutine` and `recvResponseRoutine` and returns nil; a failure
returns the connect error when `mustConnect`, and otherwise sleeps 3 s and
retries; an exhausted outcome list models a loop still retrying. -/
def onStartTrace (mustConnect : Bool) : List Bool → List StartEvent
  | [] => []
  | ok :: rest =>
    if ok then
      [StartEvent.connectAttempt, StartEvent.spawnSender,
       StartEvent.spawnReceiver, StartEvent.returnedOk]
    else if mustConnect then
      [StartEvent.connectAttempt, StartEvent.returnedConnectError]
    else
      StartEvent.connectAttempt :: StartEvent.sleep3s ::
        onStartTrace mustConnect rest

/-- Outcome of a synchronous entry point: either the function returned a
value, or it is blocked in `ReqRes.Wait()` on the given handle and its result
depends on concurrent sender/receiver activity not part of this step. -/
inductive SyncOutcome (α : Type)
  | returned (val : α)
  | blockedOnWait (id : Nat)
deriving DecidableEq, Repr

/-- `FlushSync` (socket_client.go:276-283): queue a `Flush`; if an error is
already latched, return it without waiting; otherwise block in
`reqRes.Wait()`. -/
def flushSync (s : ClientState) : SyncOutcome (Option WrappedError) × ClientState :=
  let q := queueRequest { value := RequestValue.flush } s
  match Error q.2 with
  | some e => (SyncOutcome.returned (some e), q.2)
  | none => (SyncOutcome.blockedOnWait q.1, q.2)

/-- `InfoSync` (socket_client.go:291-295): queue an `Info` request, run
`FlushSync` (its return value is ignored), then return the nil-safe
`GetInfo` of the handle response together with `Error()`. Blocked only when
`FlushSync` blocks. -/
def infoSync (req : RequestInfo) (s : ClientState) :
    SyncOutcome (Option ResponseInfo × Option WrappedError) × ClientState :=
  let q := queueRequest { value := RequestValue.info req } s
  match flushSync q.2 with
  | (SyncOutcome.blockedOnWait w, s2) => (SyncOutcome.blockedOnWait w, s2)
  | (SyncOutcome.returned _, s2) =>
      (SyncOutcome.returned
        ((s2.store.getD q.1 default).response.bind Response.getInfo, Error s2), s2)

/-! ## Helper lemmas -/

/-- Lookup at the length of the left part of an append hits the first
appended element. -/
theorem getD_concat {α : Type} [Inhabited α] (l : List α) (a : α) (l2 : List α) :
    (l ++ a :: l2).getD l.length default = a := by
  rw [List.getD_eq_getElem?_getD, List.getElem?_append_right (le_refl _)]
  simp

/-- Draining preserves the store length. -/
theorem foldSetDone_length (l : List Nat) (st : List ReqRes) :
    (l.foldl setDoneStore st).length = st.length := by
  induction l generalizing st with
  | nil => rfl
  | cons i rest ih =>
    rw [List.foldl_cons, ih]
    simp [setDoneStore]

/-- Draining a list of ids leaves every other slot of the store unchanged. -/
theorem foldSetDone_not_mem (l : List Nat) (st : List ReqRes) (id : Nat)
    (h : id ∉ l) : (l.foldl setDoneStore st)[id]? = st[id]? := by
  induction l generalizing st with
  | nil => rfl
  | cons i rest ih =>
    rw [List.foldl_cons, ih _ (fun hm => h (List.mem_cons_of_mem _ hm))]
    have hne : i ≠ id := by
      intro hq
      subst hq
      exact h (List.mem_cons_self i rest)
    exact List.getElem?_set_ne hne

/-- Draining a list of in-range ids marks each of them done. -/
theorem foldSetDone_done (l : List Nat) (st : List ReqRes)
    (hwf : ∀ id ∈ l, id < st.length) (id : Nat) (hid : id ∈ l) :
    ((l.foldl setDoneStore st).getD id default).done = true := by
  induction l generalizing st with
  | nil => cases hid
  | cons i rest ih =>
    rw [List.foldl_cons]
    by_cases hmem : id ∈ rest
    · refine ih (setDoneStore st i) (fun j hj => ?_) hmem
      simpa [setDoneStore] using hwf j (List.mem_cons_of_mem _ hj)
    · have hidi : id = i := by
        rcases List.mem_cons.mp hid with h | h
        · exact h
        · exact absurd h hmem
      subst hidi
      rw [List.getD_eq_getElem?_getD, foldSetDone_not_mem rest _ id hmem]
      have hlt : id < st.length := hwf id (List.mem_cons_self _ _)
      simp [setDoneStore, List.getElem?_set_self hlt]

/-- `queueRequest` leaves the latched error unchanged (it only touches the
store, the submission queue and the flush timer). -/
theorem queueRequest_err (req : Request) (s : ClientState) :
    (queueRequest req s).2.err = s.err := by
  obtain ⟨v⟩ := req
  cases v <;> simp [queueRequest, flushTimerUnset, flushTimerSetOp]

/-- The state built by `queueRequest`, in one equation, together with the
returned handle id. -/
theorem queueRequest_eq (req : Request) (s : ClientState) :
    (queueRequest req s).1 = s.store.length ∧
    (queueRequest req s).2 =
      { s with store := s.store ++ [NewReqRes req],
               reqQueue := s.reqQueue ++ [s.store.length],
               flushTimerSet := !(isFlushReq req) } := by
  obtain ⟨v⟩ := req
  cases v <;>
    simp [queueRequest, flushTimerUnset, flushTimerSetOp, isFlushReq]

/-- With an error latched, `FlushSync` takes the early-return path: it
queues its `Flush` and returns the wrapped latched error without waiting. -/
theorem flushSync_latched (s : ClientState) (e : CErr) (h : s.err = some e) :
    flushSync s = (SyncOutcome.returned (some { cause := e }),
                   (queueRequest { value := RequestValue.flush } s).2) := by
  have h2 : Error (queueRequest { value := RequestValue.flush } s).2
      = some { cause := e } := by
    rw [Error, queueRequest_err, h]
    rfl
  simp only [flushSync, h2]

/-- With an error latched, `infoSync` takes the early-return path of
`FlushSync` and reports the latched error; the freshly queued `Info` handle
has no response yet, so the nil-safe getter yields `none`. -/
theorem infoSync_latched (r : RequestInfo) (s : ClientState) (e : CErr)
    (h : s.err = some e) :
    (infoSync r s).1 = SyncOutcome.returned (none, some { cause := e }) := by
  have h1 : (queueRequest { value := RequestValue.info r } s).2.err = some e := by
    rw [queueRequest_err, h]
  obtain ⟨hq1, hq2⟩ := queueRequest_eq { value := RequestValue.info r } s
  obtain ⟨hp1, hp2⟩ := queueRequest_eq { value := RequestValue.flush }
    (queueRequest { value := RequestValue.info r } s).2
  have hstore : (queueRequest { value := RequestValue.flush }
      (queueRequest { value := RequestValue.info r } s).2).2.store
      = s.store ++ (NewReqRes { value := RequestValue.info r } ::
          [NewReqRes { value := RequestValue.flush }]) := by
    rw [hp2, hq2]
    simp
  have hgd : ((queueRequest { value := RequestValue.flush }
        (queueRequest { value := RequestValue.info r } s).2).2.store.getD
        (queueRequest { value := RequestValue.info r } s).1 default)
      = NewReqRes { value := RequestValue.info r } := by
    rw [hstore, hq1]
    exact getD_concat s.store _ _
  have h2 : Error (queueRequest { value := RequestValue.flush }
      (queueRequest { value := RequestValue.info r } s).2).2
      = some { cause := e } := by
    rw [Error, queueRequest_err, h1]
    rfl
  simp only [infoSync, flushSync_latched _ e h1, hgd, h2, NewReqRes,
    Option.none_bind]

/-! ## Claims -/

/-- C4: `resMatchesReq(req, res)` returns true iff the response variant tag
equals the request variant tag for one of the eleven defined pairings, and
false for every other pairing (in particular for `Exception`, whose tag is
`none`). -/
theorem resMatchesReq_iff_tags (req : Request) (res : Response) :
    resMatchesReq req res = true ↔ resTagOf res.value = some (reqTag req.value) := by
  obtain ⟨rv⟩ := req
  obtain ⟨sv⟩ := res
  cases rv <;> cases sv <;> simp [resMatchesReq, reqTag, resTagOf]

/-- C6: in the sender loop body, after the frame is written to the buffered
writer, the writer is flushed to the socket exactly when the request variant
is `Flush`: a `Flush` request empties the buffer onto the wire, any other
request leaves the wire untouched and the frame sitting in the buffer. -/
theorem sender_flushes_iff_flush_request (id : Nat) (s : ClientState) :
    (senderProcess id s).wire =
      (if isFlushReq (s.store.getD id default).request
       then s.wire ++ (s.wbuf ++ [(s.store.getD id default).request])
       else s.wire) ∧
    (senderProcess id s).wbuf =
      (if isFlushReq (s.store.getD id default).request
       then []
       else s.wbuf ++ [(s.store.getD id default).request]) := by
  unfold senderProcess senderProcessT willSendReq writeMessage
  split <;> simp_all

/-- C7: `queueRequest` unsets the flush timer exactly for a `Flush` request
and sets it for every other variant, and the returned handle is the freshly
constructed `ReqRes` (no response, not done) sitting at the tail of the
submission queue. -/
theorem queueRequest_spec (req : Request) (s : ClientState) :
    ((queueRequest req s).2.flushTimerSet = false ↔ isFlushReq req = true) ∧
    (queueRequest req s).2.reqQueue = s.reqQueue ++ [(queueRequest req s).1] ∧
    (queueRequest req s).2.store.getD (queueRequest req s).1 default = NewReqRes req ∧
    ((queueRequest req s).2.store.getD (queueRequest req s).1 default).response = none ∧
    ((queueRequest req s).2.store.getD (queueRequest req s).1 default).done = false := by
  obtain ⟨hfst, hsnd⟩ := queueRequest_eq req s
  rw [hfst, hsnd]
  refine ⟨?_, rfl, ?_, ?_, ?_⟩
  · cases hf : isFlushReq req <;> simp [hf]
  all_goals
    have hg : (s.store ++ [NewReqRes req]).getD s.store.length default = NewReqRes req :=
      getD_concat s.store (NewReqRes req) []
    simp [hg, NewReqRes]

/-- C8: on a flush-timer fire the sender attempts a non-blocking enqueue of
one fresh `ReqRes(Flush)`: when the submission channel is full the state is
unchanged (the injected `Flush` is dropped silently, no error is latched and
the client keeps running); otherwise exactly one `Flush` handle is appended,
with the error slot and running flag untouched. -/
theorem timer_fire_nonblocking_enqueue (s : ClientState) :
    (reqQueueSize ≤ s.reqQueue.length → timerFireStep s = s) ∧
    (s.reqQueue.length < reqQueueSize →
      (timerFireStep s).reqQueue = s.reqQueue ++ [s.store.length] ∧
      (timerFireStep s).store = s.store ++ [NewReqRes { value := RequestValue.flush }] ∧
      (timerFireStep s).err = s.err ∧
      (timerFireStep s).running = s.running) := by
  constructor
  · intro h
    simp [timerFireStep, Nat.not_lt.mpr h]
  · intro h
    simp [timerFireStep, h]

/-- A started client with nothing pending, used to instantiate the claims at
concrete inputs. -/
def emptyClient : ClientState :=
  { NewSocketClient "tcp://addr" true with running := true, connOpen := true }

/-- A started client whose submission channel holds `reqQueueSize` entries. -/
def fullQueueClient : ClientState :=
  { emptyClient with
      store := [NewReqRes (Request.mk RequestValue.flush)],
      reqQueue := List.replicate reqQueueSize 0 }

/-- C8 witness: at a full queue the fire is dropped; at an empty queue
exactly one `Flush` handle (id 0) is enqueued. -/
theorem timer_fire_nonblocking_enqueue_witness :
    timerFireStep fullQueueClient = fullQueueClient ∧
    (timerFireStep emptyClient).reqQueue = [0] := by
  constructor
  · exact (timer_fire_nonblocking_enqueue fullQueueClient).1
      (by simp [fullQueueClient, emptyClient, NewSocketClient])
  · have h := (timer_fire_nonblocking_enqueue emptyClient).2
      (by simp [emptyClient, NewSocketClient, reqQueueSize])
    simpa [emptyClient, NewSocketClient] using h.1

/-- C9: in the sender loop body the handle is appended to the in-flight FIFO
(`willSendReq`) strictly before its frame is written through the codec: the
event trace has the FIFO append at an earlier position than the write. -/
theorem fifo_append_before_write (id : Nat) (s : ClientState) :
    ∃ i j : Nat, i < j ∧
      (senderProcessT id s).2[i]? = some (SenderEvent.appendFifo id) ∧
      (senderProcessT id s).2[j]? = some (SenderEvent.writeFrame id) := by
  refine ⟨0, 1, by omega, ?_, ?_⟩ <;>
  · unfold senderProcessT willSendReq writeMessage
    simp only []
    split <;> rfl

/-- C10: `StopForError` on a client that is not running returns immediately:
the state is unchanged, no error is latched, and `Error()` keeps returning
whatever was latched before (or nil). -/
theorem stopForError_not_running_noop (e : CErr) (s : ClientState)
    (h : s.running = false) :
    stopForError e s = s ∧ Error (stopForError e s) = Error s := by
  have hs : stopForError e s = s := by simp [stopForError, h]
  exact ⟨hs, by rw [hs]⟩

/-- A client already stopped with a latched remote-exception error. -/
def stoppedErrClient : ClientState :=
  { NewSocketClient "tcp://addr" true with err := some (CErr.remoteException "boom") }

/-- C10 witness: a late error on the stopped client is dropped and `Error()`
still reports the previously latched exception. -/
theorem stopForError_not_running_noop_witness :
    stopForError CErr.readError stoppedErrClient = stoppedErrClient ∧
    Error (stopForError CErr.readError stoppedErrClient)
      = some { cause := CErr.remoteException "boom" } := by
  have h := stopForError_not_running_noop CErr.readError stoppedErrClient rfl
  exact ⟨h.1, by rw [h.1]; rfl⟩

/-- C5: with `mustConnect` a failed first connect makes `OnStart` return the
connect error at once, and neither routine is spawned unless the first
attempt succeeds; without `mustConnect` every failed attempt is followed by a
3-second sleep and a retry, the routines are spawned exactly when some
attempt succeeds, and the receiver is spawned exactly when the sender is. -/
theorem onStart_connect_retry_spec :
    (∀ rest : List Bool,
      onStartTrace true (false :: rest)
        = [StartEvent.connectAttempt, StartEvent.returnedConnectError]) ∧
    (∀ k : Nat,
      onStartTrace false (List.replicate k false ++ [true])
        = (List.replicate k [StartEvent.connectAttempt, StartEvent.sleep3s]).flatten
          ++ [StartEvent.connectAttempt, StartEvent.spawnSender,
              StartEvent.spawnReceiver, StartEvent.returnedOk]) ∧
    (∀ attempts : List Bool,
      (StartEvent.spawnSender ∈ onStartTrace false attempts ↔ true ∈ attempts)) ∧
    (∀ attempts : List Bool,
      (StartEvent.spawnSender ∈ onStartTrace true attempts ↔
        attempts.head? = some true)) ∧
    (∀ (mc : Bool) (attempts : List Bool),
      (StartEvent.spawnReceiver ∈ onStartTrace mc attempts ↔
        StartEvent.spawnSender ∈ onStartTrace mc attempts)) := by
  refine ⟨fun rest => rfl, ?_, ?_, ?_, ?_⟩
  · intro k
    induction k with
    | zero => rfl
    | succ n ih => simp [List.replicate_succ, onStartTrace, ih]
  · intro attempts
    induction attempts with
    | nil => simp [onStartTrace]
    | cons a rest ih => cases a <;> simp [onStartTrace, ih]
  · intro attempts
    cases attempts with
    | nil => simp [onStartTrace]
    | cons a rest => cases a <;> simp [onStartTrace]
  · intro mc attempts
    induction attempts with
    | nil => simp [onStartTrace]
    | cons a rest ih => cases a <;> cases mc <;> simp_all [onStartTrace]

/-- C3: a non-`Exception` response arriving while the in-flight FIFO is
empty makes `didRecvResponse` return the nothing-expected `ProtocolError`,
which the receiver latches as the client's fatal error while shutting the
client down (running flag cleared, connection closed). -/
theorem empty_fifo_latches_protocol_error (res : Response) (s : ClientState)
    (hempty : s.reqSent = []) (hex : isException res = false)
    (hrun : s.running = true) (herr : s.err = none) :
    didRecvResponse res s
      = Except.error (CErr.protocolNothingExpected (resTagOf res.value)) ∧
    (recvStep res s).err
      = some (CErr.protocolNothingExpected (resTagOf res.value)) ∧
    (recvStep res s).running = false ∧
    (recvStep res s).connOpen = false := by
  obtain ⟨v⟩ := res
  have hd : didRecvResponse ⟨v⟩ s
      = Except.error (CErr.protocolNothingExpected (resTagOf v)) := by
    simp [didRecvResponse, hempty]
  refine ⟨hd, ?_, ?_, ?_⟩ <;>
    cases v <;>
      simp_all [recvStep, isException, stopForError, stop, OnStop, flushQueue]

/-- C3 witness: an `Echo` response on the idle started client latches the
nothing-expected error and stops the client. -/
theorem empty_fifo_latches_protocol_error_witness :
    (recvStep { value := ResponseValue.echo "hi" } emptyClient).err
      = some (CErr.protocolNothingExpected (some Tag.echo)) ∧
    (recvStep { value := ResponseValue.echo "hi" } emptyClient).running = false := by
  have h := empty_fifo_latches_protocol_error { value := ResponseValue.echo "hi" }
    emptyClient rfl rfl rfl rfl
  exact ⟨h.2.1, h.2.2.1⟩

/-- C2: a response that fails `resMatchesReq` against the request at the
head of the in-flight FIFO makes the receiver latch the mismatch
`ProtocolError` and stop the client; a subsequent `InfoSync` then returns
that same latched error (wrapped by `Error()`) and no response payload. -/
theorem mismatch_latches_protocol_error (res : Response) (s : ClientState)
    (fr : Nat) (rest : List Nat) (r : RequestInfo)
    (hhead : s.reqSent = fr :: rest)
    (hex : isException res = false)
    (hmis : resMatchesReq (s.store.getD fr default).request res = false)
    (hrun : s.running = true) (herr : s.err = none) :
    (recvStep res s).err
      = some (CErr.protocolMismatch (resTagOf res.value)
          (reqTag (s.store.getD fr default).request.value)) ∧
    (recvStep res s).running = false ∧
    (infoSync r (recvStep res s)).1
      = SyncOutcome.returned (none,
          some { cause := CErr.protocolMismatch (resTagOf res.value) (reqTag (s.store.getD fr default).request.value) }) ∧
    Error (recvStep res s)
      = some { cause := CErr.protocolMismatch (resTagOf res.value) (reqTag (s.store.getD fr default).request.value) } := by
  obtain ⟨v⟩ := res
  have hd : didRecvResponse ⟨v⟩ s
      = Except.error (CErr.protocolMismatch (resTagOf v)
          (reqTag (s.store.getD fr default).request.value)) := by
    have hmis2 := hmis
    rw [List.getD_eq_getElem?_getD] at hmis2
    simp [didRecvResponse, hhead, hmis2]
  have herr2 : (recvStep ⟨v⟩ s).err
      = some (CErr.protocolMismatch (resTagOf v)
          (reqTag (s.store.getD fr default).request.value)) := by
    cases v <;>
      simp_all [recvStep, isException, stopForError, stop, OnStop, flushQueue]
  have hrun2 : (recvStep ⟨v⟩ s).running = false := by
    cases v <;>
      simp_all [recvStep, isException, stopForError, stop, OnStop, flushQueue]
  exact ⟨herr2, hrun2, infoSync_latched r _ _ herr2, by rw [Error, herr2]; rfl⟩

/-- A started client with an outstanding `Echo` request at the head of the
in-flight FIFO. -/
def echoInFlightClient : ClientState :=
  { emptyClient with
      store := [NewReqRes (Request.mk (RequestValue.echo "hi"))],
      reqSent := [0] }

/-- C2 witness: a `Commit` response to the in-flight `Echo("hi")` latches
the mismatch error; `InfoSync` afterwards reports the same latched error. -/
theorem mismatch_latches_protocol_error_witness :
    (recvStep { value := ResponseValue.commit [] } echoInFlightClient).err
      = some (CErr.protocolMismatch (some Tag.commit) Tag.echo) ∧
    (infoSync { data := "" }
        (recvStep { value := ResponseValue.commit [] } echoInFlightClient)).1
      = SyncOutcome.returned (none,
          some { cause := CErr.protocolMismatch (some Tag.commit) Tag.echo }) := by
  have h := mismatch_latches_protocol_error { value := ResponseValue.commit [] }
    echoInFlightClient 0 [] { data := "" } rfl rfl rfl rfl rfl
  exact ⟨h.1, h.2.2.1⟩

/-- The client after `EchoAsync("a")` has been queued on the started client. -/
def cexQueued : ClientState :=
  (queueRequest (Request.mk (RequestValue.echo "a")) emptyClient).2

/-- The client after the sender popped the `Echo` submission and wrote its
frame: the handle (id 0) now sits in the in-flight FIFO, unanswered. -/
def cexAfterSend : ClientState :=
  match senderQueueStep cexQueued with
  | some p => p.1
  | none => cexQueued

/-- C1 counterexample: in the execution that starts the client, queues
`Echo("a")` and lets the sender move it to the in-flight FIFO, `stop()`
leaves that handle with `done` unsignaled — `flushQueue` drains only the
submission channel and never touches `reqSent` — refuting that after
`stop()` every submitted `ReqRes` has had `done()` signaled. -/
theorem stop_leaves_inflight_undone :
    cexAfterSend.running = true ∧
    cexAfterSend.reqSent = [0] ∧
    ((stop cexAfterSend).store.getD 0 default).done = false ∧
    ¬ (∀ s : ClientState, s.running = true →
        ∀ id : Nat, id < s.store.length →
          ((stop s).store.getD id default).done = true) := by
  refine ⟨rfl, rfl, rfl, fun hclaim => ?_⟩
  have h := hclaim cexAfterSend rfl 0 (by decide)
  exact absurd h (by decide)

/-- C1 amended: after `stop()` the submission queue is empty and every
`ReqRes` that was still in the submission queue has had `done()` signaled;
handles already moved to the in-flight FIFO are not drained: the FIFO and
every store slot outside the submission queue are left exactly as they
were, so an unanswered in-flight handle stays not-done. -/
theorem stop_drains_submission_queue_only (s : ClientState)
    (hrun : s.running = true)
    (hwf : ∀ id ∈ s.reqQueue, id < s.store.length) :
    (stop s).reqQueue = [] ∧
    (∀ id ∈ s.reqQueue, ((stop s).store.getD id default).done = true) ∧
    (stop s).reqSent = s.reqSent ∧
    (∀ id : Nat, id ∉ s.reqQueue → (stop s).store[id]? = s.store[id]?) := by
  have hs : stop s = { s with running := false, connOpen := false, store := s.reqQueue.foldl setDoneStore s.store, reqQueue := [] } := by
    simp [stop, hrun, OnStop, flushQueue]
  rw [hs]
  refine ⟨rfl, ?_, rfl, ?_⟩
  · intro id hid
    exact foldSetDone_done s.reqQueue s.store hwf id hid
  · intro id hid
    exact foldSetDone_not_mem s.reqQueue s.store id hid

/-- A started client with a `CheckTx` submission still in the queue. -/
def drainWitnessClient : ClientState :=
  (queueRequest (Request.mk (RequestValue.checkTx [1])) emptyClient).2

/-- C1 amended witness: stopping with one queued `CheckTx` empties the
queue and signals that handle done. -/
theorem stop_drains_submission_queue_only_witness :
    (stop drainWitnessClient).reqQueue = [] ∧
    ((stop drainWitnessClient).store.getD 0 default).done = true := by
  have h := stop_drains_submission_queue_only drainWitnessClient rfl (by decide)
  refine ⟨h.1, ?_⟩
  have h0 : (0 : Nat) ∈ drainWitnessClient.reqQueue := by decide
  exact h.2.1 0 h0

end Abcicli
